import Mathlib

/-!
Shallow embedding of the bccsp-backed MSP (membership service provider)
from msp/mspimpl.go: the provider state, the identity and signing-identity
factories, Setup, Validate, DeserializeIdentity and the signing-identity
accessors.  External collaborators (Go stdlib pem/asn1/x509 and the BCCSP
crypto provider) are modelled by small executable functions that satisfy
the contracts the code relies on (encode/decode inverses, failure on
malformed input); everything from mspimpl.go itself is translated
line by line.
-/

namespace Msp

/-- Byte strings are modelled as lists of naturals. -/
abbrev Bytes := List Nat

/-- Model of a parsed x509.Certificate: the fields chain validation reads.
subject and issuer name, embedded public key, validity window, and the key
that produced the signature on the certificate. -/
structure Cert where
  subject : Nat
  issuer : Nat
  pubKey : Nat
  notBefore : Nat
  notAfter : Nat
  sigKey : Nat
deriving DecidableEq

/-- Model of the DER encoding of a certificate (cert.Raw): an injective
byte encoding of the certificate, tagged 195. -/
def certDER (c : Cert) : Bytes :=
  [195, c.subject, c.issuer, c.pubKey, c.notBefore, c.notAfter, c.sigKey]

/-- Model of x509.ParseCertificate: succeeds exactly on images of certDER,
returning the encoded certificate; every other byte string is structurally
invalid DER and fails. -/
def parseCertificate (b : Bytes) : Option Cert :=
  match b with
  | [t, s, i, p, nb, na, sk] =>
    if t = 195 then some ⟨s, i, p, nb, na, sk⟩ else none
  | _ => none

/-- Model of a pem.Block: the DER payload carried by a PEM armor. -/
structure PemBlock where
  bytes : Bytes
deriving DecidableEq

/-- Model of pem.EncodeToMemory: PEM armor around a DER payload,
tagged 80 with an explicit length. -/
def pemEncode (b : Bytes) : Bytes :=
  80 :: b.length :: b

/-- Model of pem.Decode: returns the block when the input is PEM armored,
and none (a nil block in Go) otherwise. -/
def pemDecode (b : Bytes) : Option PemBlock :=
  match b with
  | t :: n :: rest =>
    if t = 80 then (if rest.length = n then some ⟨rest⟩ else none) else none
  | _ => none

/-- The SerializedIdentity wire envelope: the provider identifier (a string,
modelled as a natural) and the PEM bytes of the certificate. -/
structure SerializedIdentity where
  Mspid : Nat
  IdBytes : Bytes
deriving DecidableEq

/-- Model of asn1.Marshal on a SerializedIdentity: a tagged, self describing
encoding of the two fields. -/
def asn1Marshal (sid : SerializedIdentity) : Bytes :=
  165 :: sid.Mspid :: sid.IdBytes.length :: sid.IdBytes

/-- Model of asn1.Unmarshal into a SerializedIdentity: inverse of
asn1Marshal; empty or otherwise malformed input fails. -/
def asn1Unmarshal (b : Bytes) : Option SerializedIdentity :=
  match b with
  | t :: m :: n :: rest =>
    if t = 165 then (if rest.length = n then some ⟨m, rest⟩ else none)
    else none
  | _ => none

/-- Opaque key handle produced by the crypto provider. -/
abbrev Key := Nat

/-- Model of signer.CryptoSigner: a signer bound to an imported key handle. -/
structure CryptoSigner where
  key : Key
deriving DecidableEq

/-- Model of the BCCSP crypto provider (external collaborator): public
key import from a certificate, private key import from DER bytes, signer
initialization; each may reject its input (none models a Go error). -/
structure BCCSP where
  importCertPubKey : Cert → Option Key
  importPrivKey : Bytes → Option Key
  initSigner : Key → Option CryptoSigner

/-- IdentityIdentifier: provider identifier plus identity identifier. -/
structure IdentityIdentifier where
  Mspid : Nat
  Id : String
deriving DecidableEq

/-- The data of the concrete certificate backed identity type:
identifier, parsed certificate and imported public key handle. -/
structure IdentityData where
  id : IdentityIdentifier
  cert : Cert
  pk : Key
deriving DecidableEq

/-- A value of the Identity interface: either the concrete certificate
backed identity type, or any other implementation of the interface. -/
inductive IdentityV where
  | cert : IdentityData → IdentityV
  | other : Nat → IdentityV
deriving DecidableEq

/-- A signing identity: the public identity data plus the signer. -/
structure SigningIdentityData where
  id : IdentityIdentifier
  cert : Cert
  pk : Key
  signer : CryptoSigner
deriving DecidableEq

/-- KeyInfo: the PEM key material of the private signer. -/
structure KeyInfo where
  KeyMaterial : Bytes
deriving DecidableEq

/-- SigningIdentityInfo: public certificate PEM plus private key info. -/
structure SigningIdentityInfo where
  PublicSigner : Bytes
  PrivateSigner : KeyInfo
deriving DecidableEq

/-- FabricMSPConfig: name, admin certificate PEMs, root certificate PEMs
and the optional signing identity section. -/
structure FabricMSPConfig where
  Name : Nat
  Admins : List Bytes
  RootCerts : List Bytes
  SigningIdentity : Option SigningIdentityInfo

/-- MSPConfig: carrier of the fabric config.  The json.Unmarshal of the
Config bytes into a FabricMSPConfig (Go stdlib, external) is modelled as
already performed, so Config holds the decoded structure. -/
structure MSPConfig where
  Config : FabricMSPConfig

/-- Every distinct error return site of mspimpl.go, named after its
message. -/
inductive MspErr where
  | nilIdBytes
  | couldNotDecodePemBytes
  | failedParseCert
  | failedImportPubKey
  | nilSidInfo
  | failedImportPrivKey
  | failedInitSigner
  | nilConf
  | noDefaultSigner
  | identityTypeNotRecognized
  | couldNotDeserializeSerializedIdentity
  | couldNotDecodePemStructure
  | parseCertificateFailed
  | failedImportDeserializedPubKey
  | notValid
deriving DecidableEq

/-- The spec error taxonomy, section 7: DecodeError covers PEM and
structural envelope failures. -/
def MspErr.isDecodeError : MspErr → Bool
  | .couldNotDecodePemBytes => true
  | .couldNotDeserializeSerializedIdentity => true
  | .couldNotDecodePemStructure => true
  | _ => false

/-- The spec error taxonomy, section 7: ParseError covers x509 structural
failures. -/
def MspErr.isParseError : MspErr → Bool
  | .failedParseCert => true
  | .parseCertificateFailed => true
  | _ => false

/-- The spec error taxonomy, section 7: TrustError covers chain validation
failures. -/
def MspErr.isTrustError : MspErr → Bool
  | .notValid => true
  | _ => false

/-- The spec error taxonomy, section 7: NotConfigured covers requesting the
signing identity when none was set up. -/
def MspErr.isNotConfigured : MspErr → Bool
  | .noDefaultSigner => true
  | _ => false

/-- The spec error taxonomy, section 7: UnsupportedIdentityType covers
identities not backed by a certificate. -/
def MspErr.isUnsupportedIdentityType : MspErr → Bool
  | .identityTypeNotRecognized => true
  | _ => false

/-- Result of running a Go function: a value, a returned error, or a
runtime panic (for example a nil pointer dereference). -/
inductive Outcome (α : Type) where
  | ok : α → Outcome α
  | err : MspErr → Outcome α
  | panicked : Outcome α
deriving DecidableEq

/-- The bccspmsp provider state: trusted root identities, the default
signing identity, admin identities, the crypto provider and the provider
name.  The Go slices made by Setup start out filled with nil interface
values, so the slots hold options. -/
structure BccspMsp where
  trustedCerts : List (Option IdentityData)
  signer : Option SigningIdentityData
  admins : List (Option IdentityData)
  bccsp : BCCSP
  name : Nat

/-- bccspmsp.getIdentityFromConf: nil check, pem.Decode,
x509.ParseCertificate, public key import, then the identity with the
fixed identifier IDENTITY scoped by the provider name. -/
def getIdentityFromConf (msp : BccspMsp) (idBytes : Option Bytes) :
    Except MspErr IdentityData :=
  match idBytes with
  | none => .error .nilIdBytes
  | some bs =>
    match pemDecode bs with
    | none => .error .couldNotDecodePemBytes
    | some pemCert =>
      match parseCertificate pemCert.bytes with
      | none => .error .failedParseCert
      | some cert =>
        match msp.bccsp.importCertPubKey cert with
        | none => .error .failedImportPubKey
        | some certPubK =>
          .ok ⟨⟨msp.name, "IDENTITY"⟩, cert, certPubK⟩

/-- bccspmsp.getSigningIdentityFromConf: nil check, build the public
identity, pem.Decode the key material, import the private key, initialize
the signer, then the signing identity with the fixed identifier DEFAULT.
The result of pem.Decode is dereferenced without a nil check, so malformed
key material is a runtime panic, not an error return. -/
def getSigningIdentityFromConf (msp : BccspMsp)
    (sidInfo : Option SigningIdentityInfo) : Outcome SigningIdentityData :=
  match sidInfo with
  | none => .err .nilSidInfo
  | some si =>
    match getIdentityFromConf msp (some si.PublicSigner) with
    | .error e => .err e
    | .ok idPub =>
      match pemDecode si.PrivateSigner.KeyMaterial with
      | none => .panicked
      | some pemKey =>
        match msp.bccsp.importPrivKey pemKey.bytes with
        | none => .err .failedImportPrivKey
        | some key =>
          match msp.bccsp.initSigner key with
          | none => .err .failedInitSigner
          | some peerSigner =>
            .ok ⟨⟨msp.name, "DEFAULT"⟩, idPub.cert, idPub.pk, peerSigner⟩

/-- The Setup loop over a certificate list: fills slot i, i+1, ... of the
pre-made slice with the identities built from the certificates, stopping
at the first failure and returning its error. -/
def fillIdentities (msp : BccspMsp) (certs : List Bytes)
    (slots : List (Option IdentityData)) (i : Nat) :
    List (Option IdentityData) × Option MspErr :=
  match certs with
  | [] => (slots, none)
  | c :: rest =>
    match getIdentityFromConf msp (some c) with
    | .error e => (slots, some e)
    | .ok id => fillIdentities msp rest (slots.set i (some id)) (i + 1)

/-- bccspmsp.Setup: nil check, set the name, make and fill the admin
slice, make and fill the trusted cert slice, then build the signer when a
signing identity section is present.  The state is mutated in place, so
the returned provider reflects every assignment made before a failure. -/
def Setup (msp : BccspMsp) (conf1 : Option MSPConfig) :
    BccspMsp × Outcome Unit :=
  match conf1 with
  | none => (msp, .err .nilConf)
  | some c1 =>
    let conf := c1.Config
    let msp1 := { msp with name := conf.Name }
    let msp2 := { msp1 with admins := List.replicate conf.Admins.length none }
    match fillIdentities msp2 conf.Admins msp2.admins 0 with
    | (slots, some e) => ({ msp2 with admins := slots }, .err e)
    | (slots, none) =>
      let msp3 := { msp2 with admins := slots }
      let msp4 :=
        { msp3 with trustedCerts := List.replicate conf.RootCerts.length none }
      match fillIdentities msp4 conf.RootCerts msp4.trustedCerts 0 with
      | (slots2, some e) => ({ msp4 with trustedCerts := slots2 }, .err e)
      | (slots2, none) =>
        let msp5 := { msp4 with trustedCerts := slots2 }
        match conf.SigningIdentity with
        | none => (msp5, .ok ())
        | some si =>
          match getSigningIdentityFromConf msp5 (some si) with
          | .err e => (msp5, .err e)
          | .panicked => (msp5, .panicked)
          | .ok sid => ({ msp5 with signer := some sid }, .ok ())

/-- bccspmsp.GetDefaultSigningIdentity: fails when no signer is held,
otherwise returns it. -/
def GetDefaultSigningIdentity (msp : BccspMsp) :
    Except MspErr SigningIdentityData :=
  match msp.signer with
  | none => .error .noDefaultSigner
  | some s => .ok s

/-- bccspmsp.GetSigningIdentity: the body is only a TODO comment and
return nil, nil — both results are nil for every identifier. -/
def GetSigningIdentity (msp : BccspMsp)
    (identifier : Option IdentityIdentifier) :
    Option SigningIdentityData × Option MspErr :=
  (none, none)

/-- A certificate is within its validity window at time t
(x509 isValid check). -/
def validAt (c : Cert) (t : Nat) : Bool :=
  c.notBefore ≤ t && t ≤ c.notAfter

/-- The signature on c verifies under a parent certificate: issuer name
matches the parent subject and the signing key is the parent key. -/
def signedBy (c parent : Cert) : Bool :=
  c.issuer == parent.subject && c.sigKey == parent.pubKey

/-- Model of x509 Certificate.Verify with the given roots pool, no
intermediates, at time t: the chain from the certificate to a pool member
is unbroken and every certificate in it is within its validity window.
With an empty intermediate pool every chain is the certificate followed by
the root that signed it (a self signed root in the pool chains to
itself). -/
def x509Verify (c : Cert) (roots : List Cert) (t : Nat) : Bool :=
  validAt c t && roots.any (fun r => validAt r t && signedBy c r)

/-- The certificates held by a trusted cert slice; none when some slot
still holds a nil interface value (whose cert field dereference would
panic). -/
def collectRootCerts : List (Option IdentityData) → Option (List Cert)
  | [] => some []
  | none :: _ => none
  | some d :: rest => (collectRootCerts rest).map (fun l => d.cert :: l)

/-- bccspmsp.Validate: type switch on the identity; the certificate backed
type is verified against a pool of every trusted cert at the current time,
any other type is not recognized. -/
def Validate (msp : BccspMsp) (t : Nat) (id : IdentityV) : Outcome Unit :=
  match id with
  | .cert d =>
    match collectRootCerts msp.trustedCerts with
    | none => .panicked
    | some pool =>
      if x509Verify d.cert pool t then .ok () else .err .notValid
  | .other _ => .err .identityTypeNotRecognized

/-- bccspmsp.DeserializeIdentity: asn1 unmarshal the envelope, pem decode
the embedded bytes, parse the certificate, import its public key, and
return the identity with the fixed identifier DEFAULT; the envelope Mspid
is never consulted. -/
def DeserializeIdentity (msp : BccspMsp) (serializedID : Bytes) :
    Except MspErr IdentityData :=
  match asn1Unmarshal serializedID with
  | none => .error .couldNotDeserializeSerializedIdentity
  | some sId =>
    match pemDecode sId.IdBytes with
    | none => .error .couldNotDecodePemStructure
    | some bl =>
      match parseCertificate bl.bytes with
      | none => .error .parseCertificateFailed
      | some cert =>
        match msp.bccsp.importCertPubKey cert with
        | none => .error .failedImportDeserializedPubKey
        | some pub =>
          .ok ⟨⟨msp.name, "DEFAULT"⟩, cert, pub⟩

/-- Modelled from the spec: the Identity Codec serialize operation (the
Serialize method of the concrete identity type is not part of the provided
source).  Per section 4.4 it produces the tagged envelope of the provider
identifier and the PEM encoding of the certificate, marshalled with the
asn1 encoder. -/
def serializeIdentity (d : IdentityData) : Bytes :=
  asn1Marshal ⟨d.id.Mspid, pemEncode (certDER d.cert)⟩

/-! Concrete instances used to evaluate the definitions: a crypto provider
that imports every key, a self signed root, and a leaf certificate issued
by the root. -/

/-- A concrete crypto provider: public key import reads the key embedded
in the certificate, private key import and signer initialization accept
every input. -/
def testBccsp : BCCSP :=
  ⟨fun c => some c.pubKey, fun b => some b.length, fun k => some ⟨k⟩⟩

/-- A freshly created provider (NewBccspMsp): empty stores, no signer. -/
def M0 : BccspMsp := ⟨[], none, [], testBccsp, 0⟩

/-- A fresh provider whose name is already 5. -/
def M5 : BccspMsp := ⟨[], none, [], testBccsp, 5⟩

/-- A self signed root certificate. -/
def rootCert : Cert := ⟨1, 1, 10, 0, 100, 10⟩

/-- A leaf certificate issued and signed by rootCert. -/
def leafCert : Cert := ⟨2, 1, 20, 0, 100, 10⟩

/-- The PEM bytes of the leaf certificate. -/
def leafPEM : Bytes := pemEncode (certDER leafCert)

/-- Bytes that are not a PEM block. -/
def badBytes : Bytes := [7]

/-- The identity the factory builds from leafPEM on a provider named 5. -/
def dLeaf5 : IdentityData := ⟨⟨5, "IDENTITY"⟩, leafCert, 20⟩

/-- The identity the factory builds from the root PEM on a provider
named 5. -/
def dRoot5 : IdentityData := ⟨⟨5, "IDENTITY"⟩, rootCert, 10⟩

/-- A provider named 5 holding rootCert as its only trusted root. -/
def M5root : BccspMsp := ⟨[some dRoot5], none, [], testBccsp, 5⟩

/-! Contracts of the modelled external encoders. -/

/-- pem.Decode inverts pem.EncodeToMemory. -/
theorem pem_roundtrip (b : Bytes) : pemDecode (pemEncode b) = some ⟨b⟩ := by
  simp [pemDecode, pemEncode]

/-- x509.ParseCertificate inverts the DER encoding. -/
theorem parse_roundtrip (c : Cert) : parseCertificate (certDER c) = some c := by
  simp [parseCertificate, certDER]

/-- asn1.Unmarshal inverts asn1.Marshal. -/
theorem asn1_roundtrip (sid : SerializedIdentity) :
    asn1Unmarshal (asn1Marshal sid) = some sid := by
  simp [asn1Unmarshal, asn1Marshal]

/-- getIdentityFromConf reads only the crypto provider and the name of the
provider state. -/
theorem getIdentityFromConf_eq_of (m1 m2 : BccspMsp) (hb : m1.bccsp = m2.bccsp)
    (hn : m1.name = m2.name) (x : Option Bytes) :
    getIdentityFromConf m1 x = getIdentityFromConf m2 x := by
  unfold getIdentityFromConf
  rw [hb, hn]

/-- getSigningIdentityFromConf reads only the crypto provider and the name
of the provider state. -/
theorem getSigningIdentityFromConf_eq_of (m1 m2 : BccspMsp)
    (hb : m1.bccsp = m2.bccsp) (hn : m1.name = m2.name)
    (x : Option SigningIdentityInfo) :
    getSigningIdentityFromConf m1 x = getSigningIdentityFromConf m2 x := by
  unfold getSigningIdentityFromConf
  simp only [getIdentityFromConf_eq_of m1 m2 hb hn, hb, hn]

/-- Claim C2, code divergence: on signing identity material whose private
key field is not well formed PEM (here the bytes [1,2,3], on which
pem.Decode returns a nil block), building the signing identity does not
return a DecodeError: the code dereferences the nil block and the call
ends in a runtime panic. -/
theorem C2_signing_key_decode_panic :
    getSigningIdentityFromConf M5 (some ⟨leafPEM, ⟨[1, 2, 3]⟩⟩) =
      .panicked ∧
    pemDecode [1, 2, 3] = none := by
  constructor
  · rfl
  · rfl

/-- Claim C3: for a certificate backed identity, Validate succeeds exactly
when x509 chain verification against the pool of every certificate held in
trustedCerts, at the current time, succeeds; otherwise it fails with the
error the spec classifies as a TrustError. -/
theorem C3_validate_iff_chains (msp : BccspMsp) (t : Nat) (d : IdentityData)
    (pool : List Cert) (h : collectRootCerts msp.trustedCerts = some pool) :
    (Validate msp t (.cert d) = .ok () ↔ x509Verify d.cert pool t = true) ∧
    (Validate msp t (.cert d) = .err .notValid ↔
      x509Verify d.cert pool t = false) ∧
    MspErr.isTrustError .notValid = true := by
  refine ⟨?_, ?_, rfl⟩ <;> by_cases hv : x509Verify d.cert pool t <;>
    simp [Validate, h, hv]

/-- Claim C3 witness: the leaf certificate issued by the configured root
validates at time 50 on the provider holding that root. -/
theorem C3_validate_witness :
    collectRootCerts M5root.trustedCerts = some [rootCert] ∧
    Validate M5root 50 (.cert dLeaf5) = .ok () := by
  refine ⟨rfl, ?_⟩
  exact (C3_validate_iff_chains M5root 50 dLeaf5 [rootCert] rfl).1.mpr (by decide)

/-- Claim C5: DeserializeIdentity fails on empty input with the envelope
error the spec classifies as a DecodeError, and when the envelope and the
embedded PEM decode but the DER payload is not a valid certificate it
fails with the error the spec classifies as a ParseError. -/
theorem C5_deserialize_errors (msp : BccspMsp) (b : Bytes)
    (sid : SerializedIdentity) (bl : PemBlock)
    (h1 : asn1Unmarshal b = some sid)
    (h2 : pemDecode sid.IdBytes = some bl)
    (h3 : parseCertificate bl.bytes = none) :
    (DeserializeIdentity msp [] =
        .error .couldNotDeserializeSerializedIdentity ∧
      MspErr.isDecodeError .couldNotDeserializeSerializedIdentity = true) ∧
    (DeserializeIdentity msp b = .error .parseCertificateFailed ∧
      MspErr.isParseError .parseCertificateFailed = true) := by
  refine ⟨⟨rfl, rfl⟩, ?_, rfl⟩
  simp [DeserializeIdentity, h1, h2, h3]

/-- Claim C5 witness: the envelope carrying the PEM armored payload [9],
which is not valid certificate DER, at provider M5. -/
theorem C5_deserialize_errors_witness :
    (DeserializeIdentity M5 [] =
        .error .couldNotDeserializeSerializedIdentity ∧
      MspErr.isDecodeError .couldNotDeserializeSerializedIdentity = true) ∧
    (DeserializeIdentity M5 (asn1Marshal ⟨0, pemEncode [9]⟩) =
        .error .parseCertificateFailed ∧
      MspErr.isParseError .parseCertificateFailed = true) :=
  C5_deserialize_errors M5 (asn1Marshal ⟨0, pemEncode [9]⟩)
    ⟨0, pemEncode [9]⟩ ⟨[9]⟩ (by rfl) (by rfl) (by rfl)

/-- Claim C4: deserializing the serialization of the identity built from
the PEM of a certificate yields an identity whose certificate DER equals
the DER of the original certificate. -/
theorem C4_serialize_roundtrip (msp : BccspMsp) (c : Cert) (d : IdentityData)
    (k : Key)
    (h1 : getIdentityFromConf msp (some (pemEncode (certDER c))) = .ok d)
    (h2 : msp.bccsp.importCertPubKey c = some k) :
    ∃ d2, DeserializeIdentity msp (serializeIdentity d) = .ok d2 ∧
      certDER d2.cert = certDER c := by
  simp only [getIdentityFromConf, pem_roundtrip, parse_roundtrip] at h1
  cases hk : msp.bccsp.importCertPubKey c with
  | none => rw [hk] at h1; exact absurd h1 (by simp)
  | some k1 =>
    rw [hk] at h1
    simp only [Except.ok.injEq] at h1
    subst h1
    refine ⟨⟨⟨msp.name, "DEFAULT"⟩, c, k⟩, ?_, rfl⟩
    simp [DeserializeIdentity, serializeIdentity, asn1_roundtrip,
      pem_roundtrip, parse_roundtrip, h2]

/-- Claim C4 witness: round trip of the leaf certificate identity on
provider M5. -/
theorem C4_serialize_roundtrip_witness :
    ∃ d2, DeserializeIdentity M5 (serializeIdentity dLeaf5) = .ok d2 ∧
      certDER d2.cert = certDER leafCert :=
  C4_serialize_roundtrip M5 leafCert dLeaf5 20 (by rfl) (by rfl)

/-- A second certificate, distinct from leafCert. -/
def otherCert : Cert := ⟨3, 1, 30, 0, 100, 10⟩

/-- Claim C6, counterexample to collision resistance: two certificates
with distinct DER bytes both receive the identifier IDENTITY scoped by the
provider name, so the resulting identifiers are equal. -/
theorem C6_counterexample :
    getIdentityFromConf M5 (some (pemEncode (certDER leafCert))) =
      .ok ⟨⟨5, "IDENTITY"⟩, leafCert, 20⟩ ∧
    getIdentityFromConf M5 (some (pemEncode (certDER otherCert))) =
      .ok ⟨⟨5, "IDENTITY"⟩, otherCert, 30⟩ ∧
    (⟨⟨5, "IDENTITY"⟩, leafCert, 20⟩ : IdentityData).id =
      (⟨⟨5, "IDENTITY"⟩, otherCert, 30⟩ : IdentityData).id ∧
    certDER leafCert ≠ certDER otherCert :=
  ⟨rfl, rfl, rfl, by decide⟩

/-- Claim C6 as amended: identifier assignment is deterministic but
constant — every identity the factory builds carries the fixed identifier
IDENTITY and every signing identity the fixed identifier DEFAULT, both
scoped by the provider name, so identities built from distinct
certificates share one identifier. -/
theorem C6_fixed_identifiers (msp : BccspMsp) :
    (∀ idBytes d, getIdentityFromConf msp idBytes = .ok d →
      d.id = ⟨msp.name, "IDENTITY"⟩) ∧
    (∀ si s, getSigningIdentityFromConf msp si = .ok s →
      s.id = ⟨msp.name, "DEFAULT"⟩) := by
  constructor
  · intro idBytes d h
    unfold getIdentityFromConf at h
    repeat' split at h
    all_goals first
      | exact Except.noConfusion h
      | (injection h with h2; subst h2; rfl)
  · intro si s h
    unfold getSigningIdentityFromConf at h
    repeat' split at h
    all_goals first
      | exact Outcome.noConfusion h
      | (injection h with h2; subst h2; rfl)

/-- Claim C6 witness: the identity built from the leaf PEM on provider M5
carries the fixed identifier. -/
theorem C6_fixed_identifiers_witness : dLeaf5.id = ⟨5, "IDENTITY"⟩ :=
  (C6_fixed_identifiers M5).1 (some leafPEM) dLeaf5 (by rfl)

/-- A configuration whose admin list holds one well formed entry followed
by one malformed entry. -/
def confC1 : MSPConfig := ⟨⟨5, [leafPEM, badBytes], [], none⟩⟩

/-- Claim C1, counterexample to atomicity: on a configuration whose second
admin entry is malformed PEM, Setup returns the decode error, yet the
returned provider is not as it was before the call — its name is set and
the admin slice retains the identity built from the first entry. -/
theorem C1_counterexample :
    (Setup M0 (some confC1)).2 = .err .couldNotDecodePemBytes ∧
    (Setup M0 (some confC1)).1.admins = [some dLeaf5, none] ∧
    (Setup M0 (some confC1)).1.name = 5 ∧
    M0.admins = [] ∧ M0.name = 0 :=
  ⟨rfl, rfl, rfl, rfl, rfl⟩

/-- Claim C1 as amended: Setup fails fast — when the admin list is a well
formed entry followed by a malformed PEM entry, it returns the decode
error of the malformed entry — but it is not all-or-nothing: the returned
provider has the configured name and retains the identity built from the
first admin entry in the admin slice (remaining slots empty), while
trustedCerts and signer keep their previous values. -/
theorem C1_setup_fail_fast_partial_state (msp : BccspMsp)
    (conf : FabricMSPConfig) (g b : Bytes) (rest : List Bytes)
    (blg : PemBlock) (cg : Cert) (kg : Key)
    (hA : conf.Admins = g :: b :: rest)
    (hg1 : pemDecode g = some blg)
    (hg2 : parseCertificate blg.bytes = some cg)
    (hg3 : msp.bccsp.importCertPubKey cg = some kg)
    (hb : pemDecode b = none) :
    Setup msp (some ⟨conf⟩) =
      ({ msp with
          name := conf.Name,
          admins := some ⟨⟨conf.Name, "IDENTITY"⟩, cg, kg⟩ ::
            none :: List.replicate rest.length none },
        .err .couldNotDecodePemBytes) := by
  simp only [Setup, hA, List.length_cons, List.replicate_succ]
  simp only [fillIdentities, getIdentityFromConf, hg1, hg2, hg3, hb]
  simp [List.set]

/-- Claim C1 witness: concrete run of the amended statement on the
configuration confC1. -/
theorem C1_setup_fail_fast_witness :
    Setup M0 (some confC1) =
      ({ M0 with name := 5, admins := [some dLeaf5, none] },
        .err .couldNotDecodePemBytes) :=
  C1_setup_fail_fast_partial_state M0 ⟨5, [leafPEM, badBytes], [], none⟩
    leafPEM badBytes [] ⟨certDER leafCert⟩ leafCert 20 rfl (by rfl) (by rfl)
    (by rfl) (by rfl)

/-- Claim C7: after a successful Setup on a fresh provider,
GetDefaultSigningIdentity fails with the error the spec classifies as
NotConfigured exactly when the configuration had no signing identity
section; with a section present it returns the signing identity Setup
built from that section. -/
theorem C7_default_signing (msp : BccspMsp) (conf : FabricMSPConfig)
    (st : BccspMsp) (h0 : msp.signer = none)
    (h : Setup msp (some ⟨conf⟩) = (st, .ok ())) :
    (conf.SigningIdentity = none →
      GetDefaultSigningIdentity st = .error .noDefaultSigner ∧
      MspErr.isNotConfigured .noDefaultSigner = true) ∧
    (∀ si, conf.SigningIdentity = some si →
      ∃ s, st.signer = some s ∧
        GetDefaultSigningIdentity st = .ok s ∧
        getSigningIdentityFromConf st (some si) = .ok s) := by
  simp only [Setup] at h
  split at h
  · rw [Prod.mk.injEq] at h
    exact Outcome.noConfusion h.2
  · split at h
    · rw [Prod.mk.injEq] at h
      exact Outcome.noConfusion h.2
    · split at h
      · rename_i heq
        rw [Prod.mk.injEq] at h
        obtain ⟨hst, -⟩ := h
        subst hst
        refine ⟨fun _ => ⟨?_, rfl⟩, fun si hsi => ?_⟩
        · simp [GetDefaultSigningIdentity, h0]
        · rw [heq] at hsi
          exact Option.noConfusion hsi
      · split at h
        · rw [Prod.mk.injEq] at h
          exact Outcome.noConfusion h.2
        · rw [Prod.mk.injEq] at h
          exact Outcome.noConfusion h.2
        · rename_i siv heqSig outc sid heq2
          rw [Prod.mk.injEq] at h
          obtain ⟨hst, -⟩ := h
          subst hst
          refine ⟨fun hn => ?_, fun si2 hsi2 => ?_⟩
          · rw [heqSig] at hn
            exact Option.noConfusion hn
          · rw [heqSig] at hsi2
            obtain rfl : siv = si2 := Option.some.inj hsi2
            refine ⟨sid, rfl, rfl, ?_⟩
            exact (getSigningIdentityFromConf_eq_of _ _ rfl rfl
              (some siv)).trans heq2

/-- A configuration without a signing identity section. -/
def conf7a : FabricMSPConfig := ⟨5, [], [], none⟩

/-- Well formed signing identity material: the leaf PEM as public signer
and PEM armored key material. -/
def SIgood : SigningIdentityInfo := ⟨leafPEM, ⟨pemEncode [1, 2, 3]⟩⟩

/-- A configuration carrying the signing identity section SIgood. -/
def conf7b : FabricMSPConfig := ⟨5, [], [], some SIgood⟩

/-- The signing identity Setup builds from conf7b. -/
def sig7 : SigningIdentityData := ⟨⟨5, "DEFAULT"⟩, leafCert, 20, ⟨3⟩⟩

/-- Claim C7 witness: both branches evaluated concretely — Setup on M0
without a signing section leaves GetDefaultSigningIdentity failing, and
Setup on M0 with the section SIgood makes it return the built signing
identity. -/
theorem C7_default_signing_witness :
    (GetDefaultSigningIdentity M5 = .error .noDefaultSigner ∧
      MspErr.isNotConfigured .noDefaultSigner = true) ∧
    (∃ s, (⟨[], some sig7, [], testBccsp, 5⟩ : BccspMsp).signer = some s ∧
      GetDefaultSigningIdentity ⟨[], some sig7, [], testBccsp, 5⟩ = .ok s ∧
      getSigningIdentityFromConf ⟨[], some sig7, [], testBccsp, 5⟩
        (some SIgood) = .ok s) :=
  ⟨(C7_default_signing M0 conf7a M5 rfl rfl).1 rfl,
   (C7_default_signing M0 conf7b ⟨[], some sig7, [], testBccsp, 5⟩ rfl
     rfl).2 SIgood rfl⟩

/-- Claim C8: Validate on any identity not backed by a certificate fails
with the error the spec classifies as UnsupportedIdentityType, and the
result does not depend on the trusted root store. -/
theorem C8_unsupported_identity (msp : BccspMsp) (t : Nat) (k : Nat) :
    Validate msp t (.other k) = .err .identityTypeNotRecognized ∧
    MspErr.isUnsupportedIdentityType .identityTypeNotRecognized = true ∧
    (∀ ts, Validate { msp with trustedCerts := ts } t (.other k) =
      Validate msp t (.other k)) :=
  ⟨rfl, rfl, fun _ => rfl⟩

/-- Claim C9: DeserializeIdentity never consults the envelope Mspid: for a
well formed envelope whose certificate parses and whose key imports it
succeeds for every Mspid value, and the result is the same for any two
Mspid values over the same certificate bytes. -/
theorem C9_providerId_ignored (msp : BccspMsp) (idb : Bytes) (m1 m2 : Nat)
    (bl : PemBlock) (c : Cert) (k : Key)
    (hp : pemDecode idb = some bl)
    (hc : parseCertificate bl.bytes = some c)
    (hk : msp.bccsp.importCertPubKey c = some k) :
    DeserializeIdentity msp (asn1Marshal ⟨m1, idb⟩) =
      .ok ⟨⟨msp.name, "DEFAULT"⟩, c, k⟩ ∧
    DeserializeIdentity msp (asn1Marshal ⟨m1, idb⟩) =
      DeserializeIdentity msp (asn1Marshal ⟨m2, idb⟩) := by
  constructor <;> simp [DeserializeIdentity, asn1_roundtrip, hp, hc, hk]

/-- Claim C9 witness: the leaf certificate envelope deserializes at
provider M5 under Mspid 3 and under Mspid 4 to the same identity. -/
theorem C9_providerId_ignored_witness :
    DeserializeIdentity M5 (asn1Marshal ⟨3, leafPEM⟩) =
      .ok ⟨⟨5, "DEFAULT"⟩, leafCert, 20⟩ ∧
    DeserializeIdentity M5 (asn1Marshal ⟨3, leafPEM⟩) =
      DeserializeIdentity M5 (asn1Marshal ⟨4, leafPEM⟩) :=
  C9_providerId_ignored M5 leafPEM 3 4 ⟨certDER leafCert⟩ leafCert 20
    (by rfl) (by rfl) (by rfl)

/-- Claim C10: GetSigningIdentity returns nil, nil for every identifier,
including none (nil) and the identifier of the configured default signing
identity, and the result is independent of the provider state, so no
lookup among known signing identities occurs. -/
theorem C10_getSigningIdentity_nil_nil (msp : BccspMsp)
    (identifier : Option IdentityIdentifier) :
    GetSigningIdentity msp identifier = (none, none) ∧
    (∀ m2 : BccspMsp, GetSigningIdentity msp identifier =
      GetSigningIdentity m2 identifier) ∧
    (∀ s : SigningIdentityData, msp.signer = some s →
      GetSigningIdentity msp (some s.id) = (none, none)) :=
  ⟨rfl, fun _ => rfl, fun _ _ => rfl⟩

/-- Claim C10 witness: concrete evaluation on a provider holding a default
signing identity, queried with that same identifier. -/
theorem C10_getSigningIdentity_nil_nil_witness :
    GetSigningIdentity
      ⟨[], some ⟨⟨5, "DEFAULT"⟩, leafCert, 20, ⟨3⟩⟩, [], testBccsp, 5⟩
      (some ⟨5, "DEFAULT"⟩) = (none, none) :=
  (C10_getSigningIdentity_nil_nil
    ⟨[], some ⟨⟨5, "DEFAULT"⟩, leafCert, 20, ⟨3⟩⟩, [], testBccsp, 5⟩
    (some ⟨5, "DEFAULT"⟩)).2.2 ⟨⟨5, "DEFAULT"⟩, leafCert, 20, ⟨3⟩⟩ rfl

end Msp
